import Mathlib

/-!
Verification of the Risk & Options Scoring Engine of the trading-api
repository against its natural-language specification.

The Rust source is shallowly embedded: `f64` values become exact rationals
(`ℚ`), fallible operations become `Except`/`Option`, and the two
transcendental floating-point operations used by the metrics calculator
(`f64::sqrt`, `f64::powf`) become parameters collected in `FloatOps`,
since they have no exact rational counterpart.  Every concrete
instantiation of `FloatOps` used below agrees with the IEEE-754 double
value at every point at which the surrounding computation evaluates it.

Sources embedded:
  - src/helpers/metrics.rs            (risk metrics calculator)
  - src/helpers/trending_options.rs   (option scorer, trending pipeline)
  - src/helpers/high_open_interest.rs (contract selector, batch variant)
  - src/cache.rs                      (time-bounded memory cache)
  - src/types.rs                      (data model)
-/

namespace TradingApi

/-! ## Data model (src/types.rs) -/

/-- Embedding of `types.rs::OptionContract`.  The Rust field `r#type`
("call" or "put") is rendered as `side` because `type` is reserved.
`f64` prices are embedded as `ℚ`, `u64` open interest as `ℕ`. -/
structure OptionContract where
  symbol : String
  underlying_symbol : String
  strike_price : ℚ
  expiration_date : String
  side : String
  open_interest : Option ℕ
  open_interest_date : Option String
  close_price : Option ℚ
  close_price_date : Option String
  ask_price : Option ℚ
  bid_price : Option ℚ
  last_price : Option ℚ
  implied_volatility : Option ℚ
deriving DecidableEq

/-- Embedding of `types.rs::OptionPrices`. -/
structure OptionPrices where
  ask_price : ℚ
  bid_price : ℚ
  last_price : ℚ
  implied_volatility : ℚ
  open_interest : Option ℕ
  open_interest_date : Option String
  close_price_date : Option String
deriving DecidableEq

/-- Embedding of `types.rs::HighOpenInterestResult`. -/
structure HighOpenInterestResult where
  short_term : Option OptionContract
  leap : Option OptionContract
  error : Option String
deriving DecidableEq

/-! ## Risk metrics calculator (src/helpers/metrics.rs) -/

/-- Transcendental `f64` operations the metrics calculator uses.
`sqrt` models `f64::sqrt`, `powf b e` models `b.powf(e)`. -/
structure FloatOps where
  sqrt : ℚ → ℚ
  powf : ℚ → ℚ → ℚ

/-- Embedding of `metrics.rs::MetricsResult`. -/
structure MetricsResult where
  n_periods : ℕ
  mean_return : ℚ
  volatility : ℚ
  downside_deviation : ℚ
  cagr : ℚ
  max_drawdown : ℚ
  sharpe : ℚ
  sortino : ℚ
  calmar : ℚ
  kelly_fraction : ℚ
  composite_score : ℚ
deriving DecidableEq

/-- Embedding of `metrics.rs::CompositeWeights`. -/
structure CompositeWeights where
  sharpe : ℚ
  sortino : ℚ
  calmar : ℚ
deriving DecidableEq

/-- Embedding of the `Default` impl for `CompositeWeights` (0.4/0.4/0.2). -/
def CompositeWeights.default : CompositeWeights := ⟨2/5, 2/5, 1/5⟩

/-- Embedding of `metrics.rs::compute_returns_from_prices`.  The Rust
code maps over `prices.windows(2)`; a window `[w0, w1]` is the pair of
consecutive prices, rendered here by zipping the list with its tail. -/
def compute_returns_from_prices (prices : List ℚ) : List ℚ :=
  if prices.length < 2 then []
  else (prices.zip prices.tail).map (fun w => if w.1 ≠ 0 then w.2 / w.1 - 1 else 0)

/-- Embedding of `metrics.rs::mean`. -/
def mean (values : List ℚ) : ℚ :=
  if values.isEmpty then 0 else values.sum / (values.length : ℚ)

/-- Embedding of `metrics.rs::stddev_sample` (sample standard deviation,
n − 1 denominator, 0 for fewer than 2 values). -/
def stddev_sample (fops : FloatOps) (values : List ℚ) : ℚ :=
  let n := values.length
  if n < 2 then 0
  else
    let m := mean values
    fops.sqrt (((values.map (fun v => (v - m) * (v - m))).sum) / ((n : ℚ) - 1))

/-- Embedding of `metrics.rs::downside_deviation` (root mean square of
`min(r - target, 0)`, denominator n). -/
def downside_deviation (fops : FloatOps) (values : List ℚ) (target_per_period : ℚ) : ℚ :=
  if values.isEmpty then 0
  else
    fops.sqrt (((values.map (fun r => min (r - target_per_period) 0 * min (r - target_per_period) 0)).sum)
      / (values.length : ℚ))

/-- Helper for `equity_curve_from_returns`: the compounded values after the
initial 1.0, mirroring the Rust loop `value *= 1.0 + r; equity.push(value)`. -/
def equity_aux (value : ℚ) : List ℚ → List ℚ
  | [] => []
  | r :: rs => (value * (1 + r)) :: equity_aux (value * (1 + r)) rs

/-- Embedding of `metrics.rs::equity_curve_from_returns` (starts at 1.0,
compounds each period return). -/
def equity_curve_from_returns (returns : List ℚ) : List ℚ :=
  1 :: equity_aux 1 returns

/-- One iteration of the `max_drawdown_from_equity` loop.  The running peak
starts at `f64::MIN` in Rust, a sentinel below every value encountered;
it is modelled as `none`. -/
def mdd_step (st : Option ℚ × ℚ) (v : ℚ) : Option ℚ × ℚ :=
  let peak : ℚ :=
    match st.1 with
    | none => v
    | some p => if v > p then v else p
  let max_dd := if peak > 0 then (if (peak - v) / peak > st.2 then (peak - v) / peak else st.2) else st.2
  (some peak, max_dd)

/-- Embedding of `metrics.rs::max_drawdown_from_equity`. -/
def max_drawdown_from_equity (equity : List ℚ) : ℚ :=
  (equity.foldl mdd_step (none, 0)).2

/-- Embedding of `metrics.rs::cagr_from_equity`. -/
def cagr_from_equity (fops : FloatOps) (equity : List ℚ) (periods_per_year : ℚ) : ℚ :=
  if equity.length < 2 then 0
  else
    let total_periods : ℚ := ((equity.length - 1 : ℕ) : ℚ)
    let start := equity.headD 1
    let endv := (equity.getLast?).getD 1
    if start ≤ 0 ∨ endv ≤ 0 ∨ total_periods ≤ 0 then 0
    else fops.powf (endv / start) (periods_per_year / total_periods) - 1

/-- Embedding of `metrics.rs::risk_free_per_period` (compound conversion of
an annual rate to a per-period rate, 0 when the annual rate is ≤ −1). -/
def risk_free_per_period (fops : FloatOps) (rf_annual periods_per_year : ℚ) : ℚ :=
  if rf_annual ≤ -1 then 0
  else fops.powf (1 + rf_annual) (1 / periods_per_year) - 1

/-- The threshold 1e-12 used throughout `compute_metrics_from_returns`. -/
def eps12 : ℚ := 1 / 10 ^ 12

/-- Embedding of `metrics.rs::compute_metrics_from_returns`.  The Rust
`if !kelly.is_finite() \x7b kelly = 0.0 \x7d` and the matching guard on the
composite score are identities here: every rational is finite, so the
coercion branches never fire in the exact embedding. -/
def compute_metrics_from_returns (fops : FloatOps) (returns : List ℚ)
    (rf_annual target_return_annual : ℚ) (periods_per_year : ℕ)
    (weights : Option CompositeWeights) : MetricsResult :=
  let ppy : ℚ := (periods_per_year : ℚ)
  let rf_p := risk_free_per_period fops rf_annual ppy
  let target_p := risk_free_per_period fops target_return_annual ppy
  let n := returns.length
  let mean_r := mean returns
  let vol := stddev_sample fops returns
  let dd := downside_deviation fops returns target_p
  let mean_excess := mean (returns.map (fun r => r - rf_p))
  let sharpe := if vol > eps12 then mean_excess / vol * fops.sqrt ppy else 0
  let sortino := if dd > eps12 then mean_excess / dd * fops.sqrt ppy else 0
  let equity := equity_curve_from_returns returns
  let max_dd := max_drawdown_from_equity equity
  let cagr := cagr_from_equity fops equity ppy
  let calmar := if max_dd > eps12 then cagr / max_dd else cagr / eps12
  let variance := vol * vol
  let kelly0 := if variance > eps12 then mean_excess / variance else 0
  let kelly := min (max kelly0 0) 1
  let w := weights.getD CompositeWeights.default
  let composite := w.sharpe * sharpe + w.sortino * sortino + w.calmar * calmar
  ⟨n, mean_r, vol, dd, cagr, max_dd, sharpe, sortino, calmar, kelly, composite⟩

/-! ## Option scorer (src/helpers/trending_options.rs) -/

/-- Embedding of `trending_options.rs::calculate_option_score`.  The Rust
time-decay divisor is the literal `1.0 + 30.0 / 30.0` — a fixed 30-day
assumption, not the contract's actual days to expiry. -/
def calculate_option_score (contract : OptionContract) (spot_price underlying_score : ℚ) : ℚ :=
  let premium := contract.last_price.getD 0
  if premium ≤ 0 then 0
  else
    let delta := contract.implied_volatility.getD 0
    let base_score := underlying_score
    base_score * delta * (spot_price / premium) / (1 + 30 / 30)

/-- Result bundle of `calculate_undervalued_indicators` (the Rust function
returns these fields in a JSON object).  The spread percentage lives in
`WithTop ℚ` because the Rust code produces `f64::INFINITY` when the mid
price is unusable. -/
structure UndervaluedIndicators where
  liquidity_score : ℚ
  spread_score : ℚ
  underlying_momentum : ℚ
  overall_undervalued_score : ℚ
  spread_percentage : WithTop ℚ
  open_interest : ℕ
  is_liquid : Bool
  is_tight_spread : Bool
  has_momentum : Bool
deriving DecidableEq

/-- Embedding of `trending_options.rs::calculate_undervalued_indicators`
(the Rust spot-price parameter is likewise unused there, named `_spot_price`). -/
def calculate_undervalued_indicators (contract : OptionContract)
    (_spot_price underlying_score : ℚ) : UndervaluedIndicators :=
  let premium := contract.last_price.getD 0
  let bid := contract.bid_price.getD 0
  let ask := contract.ask_price.getD 0
  let open_interest := contract.open_interest.getD 0
  let mid_price := if bid > 0 ∧ ask > 0 then (bid + ask) / 2 else premium
  let spread := if ask > 0 ∧ bid > 0 then ask - bid else 0
  let spread_pct : WithTop ℚ := if mid_price > 0 then ((spread / mid_price : ℚ) : WithTop ℚ) else ⊤
  let liquidity_score : ℚ :=
    if open_interest > 1000 then 1 else if open_interest > 500 then 7/10
    else if open_interest > 100 then 2/5 else 1/10
  let spread_score : ℚ :=
    if spread_pct < ((1/20 : ℚ) : WithTop ℚ) then 1
    else if spread_pct < ((1/10 : ℚ) : WithTop ℚ) then 7/10
    else if spread_pct < ((1/5 : ℚ) : WithTop ℚ) then 2/5 else 1/10
  let underlying_momentum := underlying_score
  let overall_undervalued_score :=
    min (liquidity_score * (3/10) + spread_score * (3/10) + underlying_momentum * (2/5)) 1
  ⟨liquidity_score, spread_score, underlying_momentum, overall_undervalued_score,
    spread_pct, open_interest, decide (open_interest > 500),
    decide (spread_pct < ((1/10 : ℚ) : WithTop ℚ)), decide (underlying_score > 1/2)⟩

/-- Modelled from the specification words of claim C1 only (for contrast
with the code): `option_score = underlying_composite_score × proxy_delta ×
(spot/premium) / (1 + days_to_expiry/30)` with `days_to_expiry` the
contract's actual days to expiration, and score 0 when the premium is not
positive. -/
def option_score_spec (underlying_composite_score proxy_delta spot premium days_to_expiry : ℚ) : ℚ :=
  if premium ≤ 0 then 0
  else underlying_composite_score * proxy_delta * (spot / premium) / (1 + days_to_expiry / 30)

/-! ## High-open-interest contract selector (src/helpers/high_open_interest.rs) -/

/-- Descending-by-open-interest key: `open_interest.unwrap_or(0)`. -/
def oiKey (c : OptionContract) : ℕ := c.open_interest.getD 0

/-- The comparator of `fetch_contracts`:
`sort_by(|a, b| b_oi.cmp(&a_oi))` sorts larger open interest first. -/
def oi_ge (a b : OptionContract) : Prop := oiKey b ≤ oiKey a

instance : DecidableRel oi_ge := fun a b => inferInstanceAs (Decidable (oiKey b ≤ oiKey a))

instance : IsTotal OptionContract oi_ge := ⟨fun a b => (le_total (oiKey b) (oiKey a)).imp id id⟩

instance : IsTrans OptionContract oi_ge := ⟨fun _ _ _ h1 h2 => le_trans h2 h1⟩

/-- The selection step of `high_open_interest.rs::fetch_contracts`
(lines 126–144): parsed contracts are sorted by open interest descending
— Rust Vec::sort_by is a stable sort, modelled by the stable
`List.insertionSort` — and the first element is taken; an empty list
yields `None`. -/
def select_highest_oi (parsed : List OptionContract) : Option OptionContract :=
  if parsed.isEmpty then none
  else (parsed.insertionSort oi_ge).head?

/-- The success path of `high_open_interest.rs::get_option_prices`
(lines 58–66): the upstream payload carries a single `close_price`, which
is copied into ask, bid and last, with implied volatility hard-coded to 0. -/
def mk_option_prices (close_price : ℚ) (open_interest : Option ℕ)
    (open_interest_date close_price_date : Option String) : OptionPrices :=
  ⟨close_price, close_price, close_price, 0, open_interest, open_interest_date, close_price_date⟩

/-- The quote-enrichment step of `fetch_contracts` (lines 147–160): on
success the price fields are merged into the chosen contract; on failure
the error is logged and the contract is returned unchanged. -/
def enrich_contract (c : OptionContract) (res : Except String OptionPrices) : OptionContract :=
  match res with
  | .ok p =>
      ⟨c.symbol, c.underlying_symbol, c.strike_price, c.expiration_date, c.side,
        c.open_interest, c.open_interest_date, some p.last_price, p.close_price_date,
        some p.ask_price, some p.bid_price, some p.last_price, some p.implied_volatility⟩
  | .error _ => c

/-- The two expiration windows of `get_high_open_interest_contracts`:
short-term = now + [1, 60] days, LEAP = now + [365, 730] days.  The
date-string arithmetic against the wall clock is collapsed to the window
tag, which is all downstream code distinguishes. -/
inductive ExpWindow where
  | shortTerm : ExpWindow
  | leap : ExpWindow
deriving DecidableEq

/-- Upstream behaviour of `fetch_contracts` for one (ticker, option_type,
window) query: either an error string (network, status, parse failures)
or the optionally-selected, already-enriched contract. -/
def FetchEnv := String → String → ExpWindow → Except String (Option OptionContract)

/-- Embedding of `high_open_interest.rs::get_high_open_interest_contracts`
(lines 166–204): both windows are fetched independently, an error in
either is logged via eprintln! and converted to `None`, and the `error`
field of the result is always `None`. -/
def get_high_open_interest_contracts (env : FetchEnv) (ticker : String)
    (option_type : Option String) : HighOpenInterestResult :=
  let ot := option_type.getD "call"
  let short_term :=
    match env ticker ot ExpWindow.shortTerm with
    | .ok c => c
    | .error _ => none
  let leap :=
    match env ticker ot ExpWindow.leap with
    | .ok c => c
    | .error _ => none
  ⟨short_term, leap, none⟩

/-- Embedding of `get_high_open_interest_contracts_batch` (lines 207–222):
a sequential loop over the tickers (the 100 ms rate-limit sleep has no
observable effect on the result and is dropped), pushing one
(ticker, result) pair per ticker. -/
def get_high_open_interest_contracts_batch (env : FetchEnv) (tickers : List String)
    (option_type : Option String) : List (String × HighOpenInterestResult) :=
  tickers.map (fun t => (t, get_high_open_interest_contracts env t option_type))

/-! ## Time-bounded cache (src/cache.rs)

Instants and durations are modelled as natural numbers; `Instant::now()`
becomes an explicit `now` argument at each call.  The `HashMap` storage is
modelled as a partial map from keys to entries; the cache is generic in
the stored value type (the Rust code stores `serde_json::Value`, opaque
to the cache logic). -/

/-- Embedding of `cache.rs::CacheEntry`. -/
structure CacheEntry (V : Type) where
  data : V
  expires_at : ℕ

/-- Embedding of `CacheEntry::new`: `expires_at = Instant::now() + ttl`. -/
def CacheEntry.new (data : V) (ttl now : ℕ) : CacheEntry V :=
  ⟨data, now + ttl⟩

/-- Embedding of `CacheEntry::is_expired`: `Instant::now() > self.expires_at`
(strictly greater). -/
def CacheEntry.is_expired (e : CacheEntry V) (now : ℕ) : Bool :=
  now > e.expires_at

/-- Embedding of `cache.rs::MemoryCache` storage. -/
def MemoryCache (V : Type) := String → Option (CacheEntry V)

/-- Embedding of `MemoryCache::new`. -/
def MemoryCache.new (V : Type) : MemoryCache V := fun _ => none

/-- Embedding of `MemoryCache::get`: returns the (cloned) data only when an
entry is present and not expired; an expired entry is left in place but
reported as a miss. -/
def MemoryCache.get (c : MemoryCache V) (key : String) (now : ℕ) : Option V :=
  match c key with
  | some e => if ¬ e.is_expired now then some e.data else none
  | none => none

/-- Embedding of `MemoryCache::set`: inserts a fresh entry under the key. -/
def MemoryCache.set (c : MemoryCache V) (key : String) (data : V) (ttl now : ℕ) :
    MemoryCache V :=
  fun k => if k = key then some (CacheEntry.new data ttl now) else c k

/-- Embedding of `MemoryCache::cleanup_expired`: the periodic sweep retains
only unexpired entries. -/
def MemoryCache.cleanup_expired (c : MemoryCache V) (now : ℕ) : MemoryCache V :=
  fun k =>
    match c k with
    | some e => if ¬ e.is_expired now then some e else none
    | none => none

/-! ## Trending aggregation pipeline (src/helpers/trending_options.rs, lines 183–242)

Each per-ticker future of `get_trending_options_analysis` yields
`Option<Value>` — `None` when the underlying or options analysis was
skipped.  Of the produced JSON only the sort key
`underlying_metrics.metrics.composite_score` (read back with
`unwrap_or(0.0)`) determines the ranking, so the per-ticker record is
embedded as the symbol plus that optional score.

Concurrency is embedded explicitly: the scatter/gather of
`futures::future::join_all` is fed by a list of completion events
(task index, task outcome) in completion order; `join_all` places each
completed task's outcome back at its input index, so the gathered vector
is in input order whatever the completion order was. -/

/-- Per-ticker analysis record: the symbol and the composite score the
ranking comparator extracts from the JSON (absent when the lookup chain
`underlying_metrics.metrics.composite_score` fails). -/
structure TickerAnalysis where
  symbol : String
  composite_score : Option ℚ
deriving DecidableEq

/-- The sort key of the ranking comparator, with its `unwrap_or(0.0)`. -/
def trending_sort_key (a : TickerAnalysis) : ℚ := a.composite_score.getD 0

/-- The ranking order: `b_score.partial_cmp(&a_score)` sorts records with
larger composite score first (ℚ is totally ordered, so the
`unwrap_or(Ordering::Equal)` branch never fires). -/
def trending_ge (a b : TickerAnalysis) : Prop := trending_sort_key b ≤ trending_sort_key a

instance : DecidableRel trending_ge :=
  fun a b => inferInstanceAs (Decidable (trending_sort_key b ≤ trending_sort_key a))

instance : IsTotal TickerAnalysis trending_ge :=
  ⟨fun a b => (le_total (trending_sort_key b) (trending_sort_key a)).imp id id⟩

instance : IsTrans TickerAnalysis trending_ge := ⟨fun _ _ _ h1 h2 => le_trans h2 h1⟩

/-- Scatter/gather barrier of `join_all` over `n` tasks: the completion
events carry (input index, outcome); the gathered vector lists, for every
input index in input order, the outcome of the event that completed that
index (`none` if no event completed it — with a complete schedule this
never happens). -/
def join_all_gather (n : ℕ) (events : List (ℕ × Option TickerAnalysis)) :
    List (Option TickerAnalysis) :=
  (List.range n).map (fun i =>
    match events.find? (fun p => p.1 == i) with
    | some p => p.2
    | none => none)

/-- Embedding of `get_trending_options_analysis` from the gather barrier on
(lines 217–241): flatten the per-ticker `Option` outcomes (dropping failed
tickers silently), stable-sort descending by composite score, and truncate
to the caller's limit. -/
def get_trending_options_analysis (n : ℕ) (events : List (ℕ × Option TickerAnalysis))
    (limit : ℕ) : List TickerAnalysis :=
  let results := (join_all_gather n events).reduceOption
  let sorted := results.insertionSort trending_ge
  if sorted.length > limit then sorted.take limit else sorted

/-! ## Concrete inputs used by witnesses and counterexamples -/

/-- Contract builder for concrete test inputs: underlying "UND", strike 100,
side "call"; only the fields the scoring code reads vary. -/
def mkContract (sym expiry : String) (oi : Option ℕ) (bid ask last iv : Option ℚ) :
    OptionContract :=
  ⟨sym, "UND", 100, expiry, "call", oi, none, none, none, ask, bid, last, iv⟩

/-- Contract for claim C1: implied volatility 0.5, last price 10, expiring
60 days after the evaluation date (so its actual days-to-expiry is 60,
not the 30 the code hard-codes). -/
def cC1 : OptionContract :=
  mkContract "UND261211C00100000" "2026-12-11" (some 1000) none none (some 10) (some (1/2))

/-- Contract for claim C2: bid and ask absent (unusable), last price 5. -/
def cNoBA : OptionContract :=
  mkContract "UND261120C00100000" "2026-11-20" (some 200) none none (some 5) none

/-- Contract with a positive bid/ask pair, used to exercise the general
spread buckets: bid 9, ask 11, mid 10, spread 2, spread_pct 0.2. -/
def cWideBA : OptionContract :=
  mkContract "UND261120C00100001" "2026-11-20" (some 200) (some 9) (some 11) (some 10) none

/-- Pre-enrichment contract for claim C4 (stale quote fields that the
enrichment overwrites). -/
def cEnrichBase : OptionContract :=
  mkContract "ENR261218C00100000" "2026-12-18" (some 2000) (some 1) (some 3) (some 4) (some (7/10))

/-- Successful upstream contract for the C3 batch scenario. -/
def aaplContract : OptionContract :=
  mkContract "AAPL261218C00100000" "2026-12-18" (some 1000) none none none none

/-- Fetch environment for claim C3: every window query for "BAD_TICKER"
fails upstream (as a 422 invalid-symbol error string would); every other
ticker succeeds with a contract. -/
def envC3 : FetchEnv := fun ticker _ _ =>
  if ticker = "BAD_TICKER" then Except.error ("Invalid ticker symbol: " ++ ticker)
  else Except.ok (some aaplContract)

/-- Tied-open-interest contracts for claim C6 (both have open interest 5,
different symbols). -/
def cTieA : OptionContract :=
  mkContract "TIEA261218C00100000" "2026-12-18" (some 5) none none none none

/-- Second tied contract for claim C6. -/
def cTieB : OptionContract :=
  mkContract "TIEB261218C00100000" "2026-12-18" (some 5) none none none none

/-- Open-interest-10 contract of the spec's [10, 500, 50] example. -/
def cOI10 : OptionContract :=
  mkContract "OIA261218C00100000" "2026-12-18" (some 10) none none none none

/-- Open-interest-500 contract of the spec's [10, 500, 50] example. -/
def cOI500 : OptionContract :=
  mkContract "OIB261218C00100000" "2026-12-18" (some 500) none none none none

/-- Open-interest-50 contract of the spec's [10, 500, 50] example. -/
def cOI50 : OptionContract :=
  mkContract "OIC261218C00100000" "2026-12-18" (some 50) none none none none

/-- Table instantiation of `f64::sqrt` for the concrete metric
computations below; it agrees with the IEEE double square root at every
point at which those computations evaluate it: sqrt 0 = 0,
sqrt 0.25 = 0.5, sqrt 4 = 2 (all exact in binary floating point). -/
def tableSqrt : ℚ → ℚ := fun q =>
  if q = 1/4 then 1/2 else if q = 4 then 2 else 0

/-- Table instantiation of `f64::powf` for the concrete metric
computations below; it agrees with the IEEE double at every point at
which those computations evaluate it: 1^x = 1, 0.25^2 = 0.0625 (exact). -/
def tablePowf : ℚ → ℚ → ℚ := fun b e =>
  if b = 1 then 1 else if b = 1/4 ∧ e = 2 then 1/16 else 1

/-- Float operations used by the concrete metric computations below. -/
def tableOps : FloatOps := ⟨tableSqrt, tablePowf⟩

/-- Per-ticker outcomes for the C10 witness: ticker 0 analysed with
composite score 1, ticker 1 dropped, ticker 2 analysed with score 3. -/
def wTasks : List (Option TickerAnalysis) :=
  [some ⟨"AAA", some 1⟩, none, some ⟨"BBB", some 3⟩]

/-! ## Theorems -/

/-- Claim C1 (corrected): with a positive last traded price the option
score is underlying_composite_score × proxy_delta × (spot/premium)
divided by the FIXED factor 1 + 30/30 = 2 — the code hard-codes a 30-day
time-decay window and never consults the contract's actual days to
expiration; with premium 0 or absent (or negative) the score is 0. -/
theorem c1_option_score_fixed_thirty_day_decay (contract : OptionContract)
    (spot_price underlying_score : ℚ) :
    (contract.last_price.getD 0 ≤ 0 →
      calculate_option_score contract spot_price underlying_score = 0) ∧
    (0 < contract.last_price.getD 0 →
      calculate_option_score contract spot_price underlying_score =
        underlying_score * contract.implied_volatility.getD 0 *
          (spot_price / contract.last_price.getD 0) / (1 + 30 / 30)) := by
  unfold calculate_option_score
  constructor
  · intro h
    rw [if_pos h]
  · intro h
    rw [if_neg (not_le.mpr h)]

/-- Claim C1 witness: the positive-premium branch of
`c1_option_score_fixed_thirty_day_decay` evaluated at the concrete
contract `cC1` (premium 10, implied volatility 0.5) with spot 100 and
underlying score 1. -/
theorem c1_option_score_fixed_thirty_day_decay_witness :
    0 < (cC1.last_price.getD 0) ∧
    calculate_option_score cC1 100 1 = 5/2 := by
  have h : 0 < (cC1.last_price.getD 0) := by norm_num [cC1, mkContract]
  refine ⟨h, ?_⟩
  rw [(c1_option_score_fixed_thirty_day_decay cC1 100 1).2 h]
  norm_num [cC1, mkContract]

/-- Claim C1 counterexample: for the contract `cC1`, whose actual days to
expiration is 60, the code's score (5/2) differs from the claimed formula
underlying × proxy_delta × (spot/premium) / (1 + days_to_expiry/30)
evaluated at days_to_expiry = 60 (which gives 5/3). -/
theorem c1_actual_dte_formula_counterexample :
    calculate_option_score cC1 100 1 = 5/2 ∧
    option_score_spec 1 (1/2) 100 10 60 = 5/3 ∧
    calculate_option_score cC1 100 1 ≠ option_score_spec 1 (1/2) 100 10 60 := by
  norm_num [calculate_option_score, option_score_spec, cC1, mkContract]

/-- Claim C2 (corrected): the spread score is the step function of the
computed spread percentage with buckets 1.0 (< 5%), 0.7 (< 10%),
0.4 (< 20%), 0.1 otherwise; when bid or ask is unusable the mid price
falls back to the last traded price, so the spread percentage is +∞
(forcing the 0.1 bucket) only when that fallback premium is also
non-positive — with a positive last price the spread is taken as 0, the
spread percentage is 0, and the spread score is the TOP bucket 1.0. -/
theorem c2_spread_score_buckets_and_fallback (contract : OptionContract)
    (spot_price underlying_score : ℚ) :
    ((calculate_undervalued_indicators contract spot_price underlying_score).spread_score =
      if (calculate_undervalued_indicators contract spot_price underlying_score).spread_percentage
          < ((1/20 : ℚ) : WithTop ℚ) then 1
      else if (calculate_undervalued_indicators contract spot_price underlying_score).spread_percentage
          < ((1/10 : ℚ) : WithTop ℚ) then 7/10
      else if (calculate_undervalued_indicators contract spot_price underlying_score).spread_percentage
          < ((1/5 : ℚ) : WithTop ℚ) then 2/5 else 1/10) ∧
    (¬ (contract.bid_price.getD 0 > 0 ∧ contract.ask_price.getD 0 > 0) →
      (contract.last_price.getD 0 ≤ 0 →
        (calculate_undervalued_indicators contract spot_price underlying_score).spread_percentage = ⊤ ∧
        (calculate_undervalued_indicators contract spot_price underlying_score).spread_score = 1/10) ∧
      (0 < contract.last_price.getD 0 →
        (calculate_undervalued_indicators contract spot_price underlying_score).spread_percentage = 0 ∧
        (calculate_undervalued_indicators contract spot_price underlying_score).spread_score = 1)) := by
  unfold calculate_undervalued_indicators
  refine ⟨rfl, fun hba => ?_⟩
  have hba' : ¬ (contract.ask_price.getD 0 > 0 ∧ contract.bid_price.getD 0 > 0) :=
    fun h => hba ⟨h.2, h.1⟩
  dsimp only
  rw [if_neg hba, if_neg hba']
  refine ⟨fun hle => ?_, fun hlt => ?_⟩
  · rw [if_neg (not_lt.mpr hle)]
    refine ⟨rfl, ?_⟩
    rw [if_neg (by exact not_top_lt), if_neg (by exact not_top_lt),
      if_neg (by exact not_top_lt)]
  · rw [if_pos hlt, zero_div]
    refine ⟨rfl, ?_⟩
    rw [if_pos (by exact_mod_cast (by norm_num : (0:ℚ) < 1/20))]

/-- Claim C2 witness: `c2_spread_score_buckets_and_fallback` instantiated
at the contract `cNoBA` (bid and ask absent, last price 5): the fallback
premium is positive, so the spread percentage is 0 and the spread score
lands in the top bucket. -/
theorem c2_spread_score_buckets_and_fallback_witness :
    ¬ (cNoBA.bid_price.getD 0 > 0 ∧ cNoBA.ask_price.getD 0 > 0) ∧
    0 < cNoBA.last_price.getD 0 ∧
    (calculate_undervalued_indicators cNoBA 100 (1/2)).spread_percentage = 0 ∧
    (calculate_undervalued_indicators cNoBA 100 (1/2)).spread_score = 1 := by
  have hba : ¬ (cNoBA.bid_price.getD 0 > 0 ∧ cNoBA.ask_price.getD 0 > 0) := by
    norm_num [cNoBA, mkContract]
  have hlt : 0 < cNoBA.last_price.getD 0 := by norm_num [cNoBA, mkContract]
  exact ⟨hba, hlt, ((c2_spread_score_buckets_and_fallback cNoBA 100 (1/2)).2 hba).2 hlt⟩

/-- Claim C2 counterexample: the contract `cNoBA` has unusable (absent)
bid and ask, yet its computed spread percentage is 0 — not +∞ as the
claim states — and its spread score is the top bucket 1.0, not 0.1: the
mid price falls back to the positive last traded price 5. -/
theorem c2_unusable_bid_ask_counterexample :
    (calculate_undervalued_indicators cNoBA 100 (1/2)).spread_percentage = 0 ∧
    (calculate_undervalued_indicators cNoBA 100 (1/2)).spread_percentage ≠ ⊤ ∧
    (calculate_undervalued_indicators cNoBA 100 (1/2)).spread_score = 1 ∧
    (calculate_undervalued_indicators cNoBA 100 (1/2)).spread_score ≠ 1/10 := by
  have h0 : ((0 : ℚ) : WithTop ℚ) < ((1/20 : ℚ) : WithTop ℚ) :=
    WithTop.coe_lt_coe.mpr (by norm_num)
  norm_num [calculate_undervalued_indicators, cNoBA, mkContract, h0]

/-- Claim C4 (confirmed): successful quote enrichment copies the single
upstream close price into ask, bid, last and close and zeroes the implied
volatility; consequently every successfully enriched contract with a
positive close price scores 0 (the delta proxy is 0), has spread
percentage 0, spread score 1.0, and is flagged as a tight spread. -/
theorem c4_enrichment_collapses_quotes (c : OptionContract) (close : ℚ)
    (oi : Option ℕ) (oi_date cp_date : Option String) (spot underlying : ℚ)
    (h : 0 < close) :
    (enrich_contract c (Except.ok (mk_option_prices close oi oi_date cp_date))).ask_price = some close ∧
    (enrich_contract c (Except.ok (mk_option_prices close oi oi_date cp_date))).bid_price = some close ∧
    (enrich_contract c (Except.ok (mk_option_prices close oi oi_date cp_date))).last_price = some close ∧
    (enrich_contract c (Except.ok (mk_option_prices close oi oi_date cp_date))).close_price = some close ∧
    (enrich_contract c (Except.ok (mk_option_prices close oi oi_date cp_date))).implied_volatility = some 0 ∧
    calculate_option_score (enrich_contract c (Except.ok (mk_option_prices close oi oi_date cp_date))) spot underlying = 0 ∧
    (calculate_undervalued_indicators (enrich_contract c (Except.ok (mk_option_prices close oi oi_date cp_date))) spot underlying).spread_percentage = 0 ∧
    (calculate_undervalued_indicators (enrich_contract c (Except.ok (mk_option_prices close oi oi_date cp_date))) spot underlying).spread_score = 1 ∧
    (calculate_undervalued_indicators (enrich_contract c (Except.ok (mk_option_prices close oi oi_date cp_date))) spot underlying).is_tight_spread = true := by
  have hmid : (0:ℚ) < (close + close) / 2 := by linarith
  have hc0 : ((0 : ℚ) : WithTop ℚ) < ((1/20 : ℚ) : WithTop ℚ) :=
    WithTop.coe_lt_coe.mpr (by norm_num)
  have hc1 : ((0 : ℚ) : WithTop ℚ) < ((1/10 : ℚ) : WithTop ℚ) :=
    WithTop.coe_lt_coe.mpr (by norm_num)
  refine ⟨rfl, rfl, rfl, rfl, rfl, ?_, ?_, ?_, ?_⟩
  · unfold calculate_option_score enrich_contract mk_option_prices
    dsimp only [Option.getD_some]
    rw [if_neg (not_le.mpr h)]
    ring
  all_goals
    unfold calculate_undervalued_indicators enrich_contract mk_option_prices
    dsimp only [Option.getD_some]
    simp [h, hmid, sub_self, zero_div, hc0, hc1]

/-- Claim C4 witness: `c4_enrichment_collapses_quotes` applied to the
concrete contract `cEnrichBase` enriched with upstream close price 5. -/
theorem c4_enrichment_collapses_quotes_witness :
    (0:ℚ) < 5 ∧
    calculate_option_score (enrich_contract cEnrichBase (Except.ok (mk_option_prices 5 (some 2100) none (some "2026-10-10")))) 100 1 = 0 ∧
    (calculate_undervalued_indicators (enrich_contract cEnrichBase (Except.ok (mk_option_prices 5 (some 2100) none (some "2026-10-10")))) 100 1).spread_score = 1 ∧
    (calculate_undervalued_indicators (enrich_contract cEnrichBase (Except.ok (mk_option_prices 5 (some 2100) none (some "2026-10-10")))) 100 1).is_tight_spread = true := by
  have h := c4_enrichment_collapses_quotes cEnrichBase 5 (some 2100) none (some "2026-10-10") 100 1 (by norm_num)
  exact ⟨by norm_num, h.2.2.2.2.2.1, h.2.2.2.2.2.2.2.1, h.2.2.2.2.2.2.2.2⟩

/-- Claim C5 (corrected): the Sharpe ratio is exactly 0 whenever the
sample volatility is at most the 1e-12 threshold, and the Sortino ratio
is exactly 0 whenever the DOWNSIDE DEVIATION is at most that threshold —
the Sortino guard tests the downside deviation, not the volatility, so a
zero-volatility series can still have a nonzero Sortino. -/
theorem c5_sharpe_sortino_guards (fops : FloatOps) (returns : List ℚ)
    (rf_annual target_return_annual : ℚ) (periods_per_year : ℕ)
    (weights : Option CompositeWeights) :
    ((compute_metrics_from_returns fops returns rf_annual target_return_annual
        periods_per_year weights).volatility ≤ eps12 →
      (compute_metrics_from_returns fops returns rf_annual target_return_annual
        periods_per_year weights).sharpe = 0) ∧
    ((compute_metrics_from_returns fops returns rf_annual target_return_annual
        periods_per_year weights).downside_deviation ≤ eps12 →
      (compute_metrics_from_returns fops returns rf_annual target_return_annual
        periods_per_year weights).sortino = 0) := by
  unfold compute_metrics_from_returns
  dsimp only
  exact ⟨fun hv => if_neg (not_lt.mpr hv), fun hd => if_neg (not_lt.mpr hd)⟩

/-- Claim C5 witness: `c5_sharpe_sortino_guards` applied to the constant
return series [−1/2, −1/2] (sample volatility 0 ≤ 1e-12), whose Sharpe is
therefore 0. -/
theorem c5_sharpe_sortino_guards_witness :
    (compute_metrics_from_returns tableOps [-(1/2), -(1/2)] 0 0 4 none).volatility ≤ eps12 ∧
    (compute_metrics_from_returns tableOps [-(1/2), -(1/2)] 0 0 4 none).sharpe = 0 := by
  have hv : (compute_metrics_from_returns tableOps [-(1/2), -(1/2)] 0 0 4 none).volatility ≤ eps12 := by
    norm_num [compute_metrics_from_returns, stddev_sample, mean, eps12, tableOps, tableSqrt]
  exact ⟨hv, (c5_sharpe_sortino_guards tableOps [-(1/2), -(1/2)] 0 0 4 none).1 hv⟩

/-- Claim C5 counterexample: for the return series [−1/2, −1/2] (with
risk-free and target rates 0, 4 periods per year) the sample volatility
is 0 — at most the 1e-12 threshold — yet the Sortino ratio is −2, not 0:
the downside deviation is 1/2, so the Sortino guard does not fire.  The
float operations are instantiated by tables agreeing with the IEEE double
values at every point evaluated. -/
theorem c5_zero_volatility_nonzero_sortino_counterexample :
    (compute_metrics_from_returns tableOps [-(1/2), -(1/2)] 0 0 4 none).volatility ≤ eps12 ∧
    (compute_metrics_from_returns tableOps [-(1/2), -(1/2)] 0 0 4 none).sortino = -2 ∧
    (compute_metrics_from_returns tableOps [-(1/2), -(1/2)] 0 0 4 none).sortino ≠ 0 := by
  norm_num [compute_metrics_from_returns, stddev_sample, downside_deviation, mean,
    risk_free_per_period, eps12, tableOps, tableSqrt, tablePowf]

/-- Helper: `compute_returns_from_prices` peels one return off a series of
length at least 2. -/
theorem compute_returns_cons (a b : ℚ) (t : List ℚ) :
    compute_returns_from_prices (a :: b :: t) =
      (if a ≠ 0 then b / a - 1 else 0) :: compute_returns_from_prices (b :: t) := by
  cases t with
  | nil => simp [compute_returns_from_prices]
  | cons c t' =>
    have h1 : ¬ ((a :: b :: c :: t').length < 2) := by
      simp only [List.length_cons]; omega
    have h2 : ¬ ((b :: c :: t').length < 2) := by
      simp only [List.length_cons]; omega
    unfold compute_returns_from_prices
    rw [if_neg h1, if_neg h2]
    simp

/-- Helper: elementwise characterization of `compute_returns_from_prices`. -/
theorem compute_returns_getD (prices : List ℚ) (i : ℕ) (h : i + 1 < prices.length) :
    (compute_returns_from_prices prices).getD i 0 =
      if prices.getD i 0 ≠ 0 then prices.getD (i+1) 0 / prices.getD i 0 - 1 else 0 := by
  induction prices generalizing i with
  | nil => simp at h
  | cons a t ih =>
    cases t with
    | nil => simp at h
    | cons b t' =>
      rw [compute_returns_cons]
      cases i with
      | zero => simp
      | succ j =>
        have hj : j + 1 < (b :: t').length := by
          simpa [Nat.succ_lt_succ_iff] using h
        simpa using ih j hj

/-- Claim C7 (confirmed): on fewer than 2 prices the return series is
empty; on n ≥ 2 prices it has length n − 1 with i-th element
p[i+1]/p[i] − 1 when p[i] ≠ 0 and 0 when p[i] = 0; on [100, 110, 99] it
is exactly [1/10, −1/10]. -/
theorem c7_compute_returns_spec (prices : List ℚ) :
    (prices.length < 2 → compute_returns_from_prices prices = []) ∧
    ((compute_returns_from_prices prices).length = prices.length - 1 ∨ prices.length < 2) ∧
    (∀ i, i + 1 < prices.length →
      (compute_returns_from_prices prices).getD i 0 =
        if prices.getD i 0 ≠ 0 then prices.getD (i+1) 0 / prices.getD i 0 - 1 else 0) ∧
    compute_returns_from_prices [(100:ℚ), 110, 99] = [1/10, -(1/10)] := by
  refine ⟨fun h => ?_, ?_, fun i h => compute_returns_getD prices i h, ?_⟩
  · simp [compute_returns_from_prices, h]
  · by_cases h : prices.length < 2
    · exact Or.inr h
    · left
      unfold compute_returns_from_prices
      rw [if_neg h]
      simp only [List.length_map, List.length_zip, List.length_tail]
      omega
  · norm_num [compute_returns_from_prices]

/-- Claim C7 witness: `c7_compute_returns_spec` instantiated at the series
[100, 110, 99] and index 0: the first return is 110/100 − 1 = 1/10. -/
theorem c7_compute_returns_spec_witness :
    (0 + 1 < ([(100:ℚ), 110, 99]).length) ∧
    (compute_returns_from_prices [(100:ℚ), 110, 99]).getD 0 0 =
      if ([(100:ℚ), 110, 99]).getD 0 0 ≠ 0 then
        ([(100:ℚ), 110, 99]).getD 1 0 / ([(100:ℚ), 110, 99]).getD 0 0 - 1 else 0 := by
  have h : (0 + 1 < ([(100:ℚ), 110, 99]).length) := by norm_num
  exact ⟨h, (c7_compute_returns_spec [(100:ℚ), 110, 99]).2.2.1 0 h⟩

/-- Claim C8 (confirmed): the Kelly fraction of every computed metrics
record lies in [0, 1] — after the (in exact arithmetic vacuous)
non-finite-to-0 coercion, the code clamps mean_excess/variance to [0, 1],
for every return series, every parameter choice and every instantiation
of the float operations. -/
theorem c8_kelly_fraction_clamped (fops : FloatOps) (returns : List ℚ)
    (rf_annual target_return_annual : ℚ) (periods_per_year : ℕ)
    (weights : Option CompositeWeights) :
    0 ≤ (compute_metrics_from_returns fops returns rf_annual target_return_annual
          periods_per_year weights).kelly_fraction ∧
    (compute_metrics_from_returns fops returns rf_annual target_return_annual
          periods_per_year weights).kelly_fraction ≤ 1 := by
  unfold compute_metrics_from_returns
  dsimp only
  exact ⟨le_min (le_max_right _ _) zero_le_one, min_le_right _ _⟩

/-- Claim C3 (corrected): the batch operation returns exactly one result
per ticker, in input order, never short-circuiting on any ticker's
failure — but the error field of every entry, including entries for
tickers whose upstream fetches failed, is None: failures are logged and
swallowed, leaving the failed slots empty, and no error annotation is
ever attached. -/
theorem c3_batch_order_and_error_field (env : FetchEnv) (tickers : List String)
    (option_type : Option String) :
    (get_high_open_interest_contracts_batch env tickers option_type).map Prod.fst = tickers ∧
    (get_high_open_interest_contracts_batch env tickers option_type).length = tickers.length ∧
    (∀ p ∈ get_high_open_interest_contracts_batch env tickers option_type,
      p.2 = get_high_open_interest_contracts env p.1 option_type ∧ p.2.error = none) := by
  refine ⟨?_, ?_, ?_⟩
  · simp only [get_high_open_interest_contracts_batch, List.map_map]
    exact (List.map_congr_left (fun a _ => rfl)).trans (List.map_id _)
  · simp [get_high_open_interest_contracts_batch]
  · intro p hp
    simp only [get_high_open_interest_contracts_batch, List.mem_map] at hp
    obtain ⟨t, _, rfl⟩ := hp
    exact ⟨rfl, rfl⟩

/-- Claim C3 witness: `c3_batch_order_and_error_field` applied to the
concrete environment `envC3` and the ticker list ["AAPL", "BAD_TICKER"],
at the batch entry produced for "AAPL". -/
theorem c3_batch_order_and_error_field_witness :
    (("AAPL", get_high_open_interest_contracts envC3 "AAPL" none) ∈
        get_high_open_interest_contracts_batch envC3 ["AAPL", "BAD_TICKER"] none) ∧
    (get_high_open_interest_contracts_batch envC3 ["AAPL", "BAD_TICKER"] none).map Prod.fst =
      ["AAPL", "BAD_TICKER"] ∧
    (get_high_open_interest_contracts envC3 "AAPL" none).error = none := by
  have hmem : ("AAPL", get_high_open_interest_contracts envC3 "AAPL" none) ∈
      get_high_open_interest_contracts_batch envC3 ["AAPL", "BAD_TICKER"] none := by
    simp [get_high_open_interest_contracts_batch]
  exact ⟨hmem, (c3_batch_order_and_error_field envC3 ["AAPL", "BAD_TICKER"] none).1,
    ((c3_batch_order_and_error_field envC3 ["AAPL", "BAD_TICKER"] none).2.2 _ hmem).2⟩

/-- Claim C3 counterexample: in the batch over ["AAPL", "BAD_TICKER"]
under `envC3` (where every window fetch for BAD_TICKER fails upstream),
the BAD_TICKER entry is present, in order — but its error field is None,
not a non-empty error annotation: the failure only empties its contract
slots. -/
theorem c3_bad_ticker_no_error_annotation_counterexample :
    get_high_open_interest_contracts_batch envC3 ["AAPL", "BAD_TICKER"] none =
      [("AAPL", ⟨some aaplContract, some aaplContract, none⟩),
       ("BAD_TICKER", ⟨none, none, none⟩)] ∧
    (get_high_open_interest_contracts envC3 "BAD_TICKER" none).error = none := by
  constructor
  · simp [get_high_open_interest_contracts_batch, get_high_open_interest_contracts, envC3]
  · rfl

/-- Claim C9 (confirmed): a get immediately following a set returns the
stored value, and a get after the ttl has elapsed — the expired entry
still physically present, no sweep having run — is a miss. -/
theorem c9_cache_roundtrip_and_expiry {V : Type} (c : MemoryCache V) (key : String)
    (v : V) (ttl t tLater : ℕ) (h : t + ttl < tLater) :
    (c.set key v ttl t).get key t = some v ∧
    (c.set key v ttl t).get key tLater = none := by
  constructor
  · simp [MemoryCache.get, MemoryCache.set, CacheEntry.new, CacheEntry.is_expired]
  · simp [MemoryCache.get, MemoryCache.set, CacheEntry.new, CacheEntry.is_expired]
    omega

/-- Claim C9 witness: `c9_cache_roundtrip_and_expiry` on the empty cache
with key "k", value 42, ttl 10, set at instant 0, read back at instants 0
(hit) and 11 (miss). -/
theorem c9_cache_roundtrip_and_expiry_witness :
    0 + 10 < 11 ∧
    ((MemoryCache.new ℕ).set "k" 42 10 0).get "k" 0 = some 42 ∧
    ((MemoryCache.new ℕ).set "k" 42 10 0).get "k" 11 = none := by
  have h := c9_cache_roundtrip_and_expiry (MemoryCache.new ℕ) "k" 42 10 0 11 (by omega)
  exact ⟨by omega, h.1, h.2⟩

/-- Helper: on a non-empty list the selector returns some contract that is
a member of the list and whose open interest (missing treated as 0) is
maximal. -/
theorem select_highest_oi_is_max (l : List OptionContract) (h : l ≠ []) :
    ∃ c, select_highest_oi l = some c ∧ c ∈ l ∧ ∀ b ∈ l, oiKey b ≤ oiKey c := by
  have hperm := List.perm_insertionSort oi_ge l
  have hsorted := List.sorted_insertionSort oi_ge l
  have hne : l.insertionSort oi_ge ≠ [] := by
    intro he
    rw [he] at hperm
    exact h hperm.nil_eq.symm
  obtain ⟨c, rest, hcons⟩ := List.exists_cons_of_ne_nil hne
  refine ⟨c, ?_, ?_, ?_⟩
  · unfold select_highest_oi
    rw [if_neg (by simpa [List.isEmpty_iff] using h), hcons]
    rfl
  · exact hperm.mem_iff.mp (hcons ▸ List.mem_cons_self c rest)
  · intro b hb
    have hb' : b ∈ c :: rest := hcons ▸ hperm.mem_iff.mpr hb
    rcases List.mem_cons.mp hb' with hbc | hmem
    · rw [hbc]
    · have hp := hcons ▸ hsorted
      exact (List.pairwise_cons.mp hp).1 b hmem

/-- Claim C6 (corrected): on every non-empty contract list the selector
returns a contract of maximal open interest (missing treated as 0), and
on every ordering of the spec's [10, 500, 50] example it picks the
open-interest-500 contract; but because the stable sort keeps the
first-seen contract among ties, the choice is NOT independent of input
order when the maximum is attained more than once. -/
theorem c6_selector_picks_max_open_interest :
    (∀ l : List OptionContract, l ≠ [] →
      ∃ c, select_highest_oi l = some c ∧ c ∈ l ∧ ∀ b ∈ l, oiKey b ≤ oiKey c) ∧
    (∀ l : List OptionContract, l.Perm [cOI10, cOI500, cOI50] →
      select_highest_oi l = some cOI500) := by
  refine ⟨select_highest_oi_is_max, fun l hl => ?_⟩
  have hne : l ≠ [] := by
    intro he
    rw [he] at hl
    have hlen := hl.length_eq
    simp at hlen
  obtain ⟨c, hsel, hmem, hmax⟩ := select_highest_oi_is_max l hne
  have h500 : cOI500 ∈ l := hl.mem_iff.mpr (by simp)
  have hge : 500 ≤ oiKey c := by
    have := hmax cOI500 h500
    simpa [oiKey, cOI500, mkContract] using this
  have hc : c ∈ [cOI10, cOI500, cOI50] := hl.mem_iff.mp hmem
  rcases List.mem_cons.mp hc with hc1 | hc'
  · rw [hc1] at hge
    norm_num [oiKey, cOI10, mkContract] at hge
  rcases List.mem_cons.mp hc' with hc2 | hc''
  · rw [hsel, hc2]
  rcases List.mem_cons.mp hc'' with hc3 | hc4
  · rw [hc3] at hge
    norm_num [oiKey, cOI50, mkContract] at hge
  · simp at hc4

/-- Claim C6 witness: `c6_selector_picks_max_open_interest` applied to the
list [cOI10, cOI500, cOI50] itself: it is non-empty, and the selector
picks the open-interest-500 contract. -/
theorem c6_selector_picks_max_open_interest_witness :
    ([cOI10, cOI500, cOI50] ≠ ([] : List OptionContract)) ∧
    List.Perm [cOI10, cOI500, cOI50] [cOI10, cOI500, cOI50] ∧
    select_highest_oi [cOI10, cOI500, cOI50] = some cOI500 := by
  exact ⟨by simp, List.Perm.refl _,
    c6_selector_picks_max_open_interest.2 [cOI10, cOI500, cOI50] (List.Perm.refl _)⟩

/-- Claim C6 counterexample: two distinct contracts tied at open interest
5; presented as [cTieA, cTieB] the selector returns cTieA, presented as
the permuted [cTieB, cTieA] it returns cTieB — the choice depends on the
input order, contradicting the claimed order-independence. -/
theorem c6_tie_order_dependence_counterexample :
    select_highest_oi [cTieA, cTieB] = some cTieA ∧
    select_highest_oi [cTieB, cTieA] = some cTieB ∧
    cTieA ≠ cTieB ∧
    List.Perm [cTieA, cTieB] [cTieB, cTieA] := by
  refine ⟨?_, ?_, ?_, List.Perm.swap cTieB cTieA []⟩
  · simp [select_highest_oi, List.insertionSort, List.orderedInsert, oi_ge, oiKey,
      cTieA, cTieB, mkContract]
  · simp [select_highest_oi, List.insertionSort, List.orderedInsert, oi_ge, oiKey,
      cTieA, cTieB, mkContract]
  · simp [cTieA, cTieB, mkContract]

/-- Helper: reading every index of a list back in order reproduces the
list. -/
theorem range_map_getD {α : Type} (l : List α) (d : α) :
    (List.range l.length).map (fun i => l.getD i d) = l := by
  induction l with
  | nil => simp
  | cons a t ih =>
    rw [List.length_cons, List.range_succ_eq_map, List.map_cons, List.map_map]
    have hcongr : ((fun i => (a :: t).getD i d) ∘ Nat.succ) = fun i => t.getD i d := by
      funext i
      simp [Function.comp]
    rw [hcongr, ih]
    simp

/-- Helper: whatever order the completion events arrive in, the gather
barrier reassembles exactly the per-task outcomes in input order. -/
theorem join_all_gather_of_perm (tasks : List (Option TickerAnalysis))
    (events : List (ℕ × Option TickerAnalysis)) (h : events.Perm tasks.enum) :
    join_all_gather tasks.length events = tasks := by
  unfold join_all_gather
  have key : ∀ i ∈ List.range tasks.length,
      (match events.find? (fun p => p.1 == i) with
       | some p => p.2
       | none => none) = tasks.getD i none := by
    intro i hi
    rw [List.mem_range] at hi
    have hmemEnum : (i, tasks.getD i none) ∈ tasks.enum := by
      rw [List.mk_mem_enum_iff_getElem?, List.getD_eq_getElem?_getD,
        List.getElem?_eq_getElem hi]
      rfl
    cases hfind : events.find? (fun p => p.1 == i) with
    | none =>
      exfalso
      have hall := List.find?_eq_none.mp hfind (i, tasks.getD i none) (h.mem_iff.mpr hmemEnum)
      simp at hall
    | some p =>
      have hpi : p.1 = i := by
        have hs := List.find?_some hfind
        simpa using hs
      have hpmem : p ∈ tasks.enum := h.mem_iff.mp (List.mem_of_find?_eq_some hfind)
      have hp2 : tasks[p.1]? = some p.2 :=
        List.mk_mem_enum_iff_getElem?.mp (show (p.1, p.2) ∈ tasks.enum from hpmem)
      rw [hpi] at hp2
      rw [List.getD_eq_getElem?_getD, hp2]
      rfl
  exact (List.map_congr_left key).trans (range_map_getD tasks none)

/-- Claim C10 (confirmed): for fixed per-ticker outcomes the pipeline
output is invariant under the completion order of the concurrent
per-ticker fetches (join_all restores input order), equals the stable
descending sort of the successful outcomes by composite score truncated
to the caller's limit, is sorted descending, and never exceeds the
limit. -/
theorem c10_pipeline_deterministic (tasks : List (Option TickerAnalysis))
    (events1 events2 : List (ℕ × Option TickerAnalysis)) (limit : ℕ)
    (h1 : events1.Perm tasks.enum) (h2 : events2.Perm tasks.enum) :
    get_trending_options_analysis tasks.length events1 limit =
      get_trending_options_analysis tasks.length events2 limit ∧
    get_trending_options_analysis tasks.length events1 limit =
      (tasks.reduceOption.insertionSort trending_ge).take limit ∧
    List.Sorted trending_ge (get_trending_options_analysis tasks.length events1 limit) ∧
    (get_trending_options_analysis tasks.length events1 limit).length ≤ limit := by
  have hpipe : ∀ events : List (ℕ × Option TickerAnalysis), events.Perm tasks.enum →
      get_trending_options_analysis tasks.length events limit =
        (tasks.reduceOption.insertionSort trending_ge).take limit := by
    intro events he
    unfold get_trending_options_analysis
    rw [join_all_gather_of_perm tasks events he]
    by_cases hlen : (tasks.reduceOption.insertionSort trending_ge).length > limit
    · rw [if_pos hlen]
    · rw [if_neg hlen, List.take_of_length_le (not_lt.mp hlen)]
  refine ⟨(hpipe events1 h1).trans (hpipe events2 h2).symm, hpipe events1 h1, ?_, ?_⟩
  · rw [hpipe events1 h1]
    exact List.Pairwise.sublist (List.take_sublist _ _)
      (List.sorted_insertionSort trending_ge tasks.reduceOption)
  · rw [hpipe events1 h1, List.length_take]
    exact inf_le_left

/-- Claim C10 witness: `c10_pipeline_deterministic` applied to the
concrete outcomes `wTasks` with the in-order completion schedule and the
reversed completion schedule: both runs give the same sorted output. -/
theorem c10_pipeline_deterministic_witness :
    ((wTasks.enum).reverse.Perm wTasks.enum) ∧
    get_trending_options_analysis wTasks.length (wTasks.enum).reverse 2 =
      get_trending_options_analysis wTasks.length wTasks.enum 2 ∧
    List.Sorted trending_ge (get_trending_options_analysis wTasks.length (wTasks.enum).reverse 2) := by
  have h := c10_pipeline_deterministic wTasks (wTasks.enum).reverse wTasks.enum 2
    (List.reverse_perm _) (List.Perm.refl _)
  exact ⟨List.reverse_perm _, h.1, h.2.2.1⟩

end TradingApi
